import Mathlib

/-!
Verification of the hospital chatbot's command-dispatch and clinical-record
workflow engine against its natural-language specification.

The embedding models the Python sources:
  - `chat Bot/python hospital_chatbot.py` (the interactive chatbot)
  - `app.py` (the HTTP login validator `validate_login_input`)
The MongoDB store is modelled as lists of documents per collection
(insertion order = list order); `find_one` is `List.find?`,
`find_one(sort=[(k, -1)])` is the document with the maximum sort key,
`insert_one` appends, and raised Python exceptions are explicit abort
results.  Strings are Lean `String`s manipulated through executable
helpers over their character lists, mirroring the Python string methods
used by the source (`strip`, `upper`, `lower`, `title`, `startswith`,
slicing, the `in` substring test, `int()`/`float()` conversion and the
`:03d` format specifier).
-/

/-- Lexicographic `<` on character lists (code-point order), the order
MongoDB uses to sort the ASCII identifier strings of this data set. -/
def strLtL : List Char → List Char → Bool
  | [], [] => false
  | [], _ :: _ => true
  | _ :: _, [] => false
  | a :: as, b :: bs => a < b || (a == b && strLtL as bs)

/-- String `<` via the underlying character lists. -/
def strLt (a b : String) : Bool := strLtL a.data b.data

/-- Python `s[k:]`: drop the first `k` characters. -/
def strDrop (k : Nat) (s : String) : String := ⟨s.data.drop k⟩

/-- `isPrefixL p l`: `p` is a prefix of `l` (Python `startswith`, list form). -/
def isPrefixL : List Char → List Char → Bool
  | [], _ => true
  | _ :: _, [] => false
  | a :: as, b :: bs => a == b && isPrefixL as bs

/-- Python `s.startswith(p)`. -/
def pyStartsWith (p s : String) : Bool := isPrefixL p.data s.data

/-- `isSubstrL p l`: `p` occurs as a contiguous substring of `l`
(Python's `p in s` test on strings). -/
def isSubstrL : List Char → List Char → Bool
  | p, [] => p.isEmpty
  | p, l@(_ :: t) => isPrefixL p l || isSubstrL p t

/-- Python `p in s` (contiguous substring occurrence). -/
def pySubstr (p s : String) : Bool := isSubstrL p.data s.data

/-- Python `s.strip()` (whitespace removed from both ends). -/
def pyStrip (s : String) : String :=
  ⟨((s.data.dropWhile Char.isWhitespace).reverse.dropWhile Char.isWhitespace).reverse⟩

/-- Python `s.upper()` (ASCII case mapping, the range used by the data). -/
def pyUpper (s : String) : String := ⟨s.data.map Char.toUpper⟩

/-- Python `s.lower()`. -/
def pyLower (s : String) : String := ⟨s.data.map Char.toLower⟩

/-- Auxiliary scanner for Python `s.title()`: a letter is uppercased when
the preceding character is not a letter, lowercased otherwise. -/
def pyTitleAux : Bool → List Char → List Char
  | _, [] => []
  | prevAlpha, c :: cs =>
    (if c.isAlpha then (if prevAlpha then c.toLower else c.toUpper) else c) ::
      pyTitleAux c.isAlpha cs

/-- Python `s.title()`. -/
def pyTitle (s : String) : String := ⟨pyTitleAux false s.data⟩

/-- Python `s.capitalize()`: first character uppercased, rest lowercased. -/
def pyCapitalize (s : String) : String :=
  match s.data with
  | [] => ⟨[]⟩
  | c :: cs => ⟨c.toUpper :: cs.map Char.toLower⟩

/-- Scanner for a run of decimal digits possibly separated by single
underscores (the digit-run grammar of Python's `int()`/`float()`),
accumulating the decimal value.  `needDigit` is true right after an
underscore (or at the start), where a digit is mandatory. -/
def parseDigitsU (needDigit : Bool) (acc : Nat) : List Char → Option Nat
  | [] => if needDigit then none else some acc
  | c :: cs =>
    if c == '_' then (if needDigit then none else parseDigitsU true acc cs)
    else if c.isDigit then parseDigitsU false (acc * 10 + (c.toNat - 48)) cs
    else none

/-- Python `int(s)`: strip, optional sign, digit run with underscores.
`none` models the `ValueError` raised on malformed input. -/
def pyInt? (s : String) : Option Int :=
  match (pyStrip s).data with
  | '+' :: rest => (parseDigitsU true 0 rest).map Int.ofNat
  | '-' :: rest => (parseDigitsU true 0 rest).map (fun n => -(Int.ofNat n))
  | l => (parseDigitsU true 0 l).map Int.ofNat

/-- `int(s)` succeeds (no exception). -/
def isPyInt (s : String) : Bool := (pyInt? s).isSome

/-- Maximal-munch digit-run scanner: returns the remaining input after a
valid nonempty digit run (with underscores), `none` if the run is
malformed at its start or ends in an underscore. -/
def scanDigitsU (needDigit : Bool) : List Char → Option (List Char)
  | [] => if needDigit then none else some []
  | c :: cs =>
    if c == '_' then (if needDigit then none else scanDigitsU true cs)
    else if c.isDigit then scanDigitsU false cs
    else if needDigit then none else some (c :: cs)

/-- After the mantissa of a float literal: either nothing, or an
exponent part `(e|E) [sign] digits`. -/
def isExpOrEnd : List Char → Bool
  | [] => true
  | c :: rest =>
    (c == 'e' || c == 'E') &&
      (match rest with
       | '+' :: t => scanDigitsU true t == some []
       | '-' :: t => scanDigitsU true t == some []
       | t => scanDigitsU true t == some [])

/-- The unsigned numeric body of a Python float literal:
`digits [. [digits]] [exp]` or `. digits [exp]`. -/
def isFloatBody (l : List Char) : Bool :=
  match l with
  | '.' :: rest =>
    (match scanDigitsU true rest with
     | some r => isExpOrEnd r
     | none => false)
  | _ =>
    match scanDigitsU true l with
    | some r =>
      (match r with
       | '.' :: rest =>
         (match scanDigitsU true rest with
          | some r2 => isExpOrEnd r2
          | none => isExpOrEnd rest)
       | _ => isExpOrEnd r)
    | none => false

/-- The special float words accepted by Python: `inf`, `infinity`, `nan`
(case-insensitive). -/
def isFloatWord (l : List Char) : Bool :=
  let low := l.map Char.toLower
  low == "inf".data || low == "infinity".data || low == "nan".data

/-- Python `float(s)` succeeds: strip, optional sign, numeric body or
special word.  `false` models the `ValueError` raised on malformed input. -/
def isPyFloat (s : String) : Bool :=
  let l := (pyStrip s).data
  let body := match l with
    | '+' :: t => t
    | '-' :: t => t
    | t => t
  isFloatWord body || isFloatBody body

/-- Python format `f"\x7bn:03d\x7d"` for a natural number: the decimal
representation left-padded with zeros to a minimum width of 3. -/
def zeroPadW (w : Nat) (n : Nat) : String :=
  ⟨List.replicate (w - (toString n).data.length) '0' ++ (toString n).data⟩

/-- Python format `f"\x7bn:03d\x7d"` for an integer (the sign counts
toward the width, as in Python). -/
def zeroPad3Int (n : Int) : String :=
  if n < 0 then "-" ++ zeroPadW 2 n.natAbs else zeroPadW 3 n.toNat

/-- `find_one(sort=[(key, -1)])` over a collection of identifier strings:
the maximum identifier in lexicographic string order, `none` when the
collection is empty. -/
def findMaxId : List String → Option String
  | [] => none
  | x :: xs => some (xs.foldl (fun m y => if strLt m y then y else m) x)

/-- The Sequential ID Allocator as implemented inline by each write
command (`cmd_create_prescription` lines 403-406, `cmd_add_note` lines
480-483, `cmd_record_administration`, `cmd_add_staff`):
take the document with the maximum identifier, parse the numeric suffix
after the first `k` characters (`int(last_id_string[k:])`), use 0 when
the collection is empty, and format `pfx + f"\x7bbase+1:03d\x7d"`.
`none` models the exception `int()` raises on a malformed suffix. -/
def nextIdFrom (pfx : String) (k : Nat) (ids : List String) : Option String :=
  match findMaxId ids with
  | none => some (pfx ++ zeroPad3Int (0 + 1))
  | some m => (pyInt? (strDrop k m)).map (fun b => pfx ++ zeroPad3Int (b + 1))

/-! ## Data model: one Lean structure per document shape, one list per
MongoDB collection.  Dates/timestamps are abstract instants (`Nat`);
optional document fields are `Option`s, with `none` for an absent field
(so the Mongo filter `"discharge_date": \x7b"$exists": False\x7d` is
`discharge_date = none`). -/

/-- A staff document (`doctors`/`nurses`/`administrators`); `id` stands
for the role-named key field `doctor_id`/`nurse_id`/`admin_id`. -/
structure Staff where
  id : String
  name : String
  department : Option String := none
  contact : Option String := none
  years_of_experience : Option Nat := none
  deriving DecidableEq

structure Patient where
  patient_id : String
  name : String
  dob : Option Nat := none
  gender : Option String := none
  contact : Option String := none
  deriving DecidableEq

structure Admission where
  admission_id : String
  patient_id : String
  department : Option String := none
  doctor : Option String := none
  admission_date : Option Nat := none
  discharge_date : Option Nat := none
  deriving DecidableEq

structure Diagnosis where
  diagnosis_id : String
  admission_id : String
  icd_code : Option String := none
  description : Option String := none
  deriving DecidableEq

structure Prescription where
  prescription_id : String
  admission_id : String
  patient_id : String
  drug_name : String
  dosage : String
  frequency : String
  prescribed_by : String
  prescribed_at : Nat
  deriving DecidableEq

structure NoteEvent where
  note_id : String
  admission_id : String
  patient_id : String
  doctor_id : String
  doctor_name : String
  note_text : String
  timestamp : Nat
  deriving DecidableEq

structure MedAdminEvent where
  event_id : String
  patient_id : String
  prescription_id : String
  medication_name : String
  event_type : String
  dosage : String
  timestamp : Nat
  staff_id : String
  staff_name : String
  staff_type : String
  deriving DecidableEq

/-- A `patient_vitals` document.  The source stores `float(temperature)`
/ `int(pulse)` / `int(oxygen)`; here the converted numbers are
represented by their accepted source literals (`some raw`), since the
claims concern only whether conversion succeeds and whether an empty
input is stored as `None` — never the numeric values themselves. -/
structure VitalsRecord where
  patient_id : String
  patient_name : String
  temperature : Option String
  blood_pressure : String
  pulse : Option String
  oxygen_saturation : Option String
  notes : String
  recorded_by : String
  recorded_at : Nat
  deriving DecidableEq

structure Application where
  application_id : String
  patient_id : String
  test_type : String
  status : String
  created_at : Option Nat := none
  deriving DecidableEq

/-- The document store `hospital_a_db`, one list per collection, in
insertion order. -/
structure Db where
  doctors : List Staff := []
  nurses : List Staff := []
  administrators : List Staff := []
  patients : List Patient := []
  admissions : List Admission := []
  diagnoses : List Diagnosis := []
  prescriptions : List Prescription := []
  note_events : List NoteEvent := []
  medication_administration : List MedAdminEvent := []
  patient_vitals : List VitalsRecord := []
  applications : List Application := []
  deriving DecidableEq

/-- The authenticated identity captured by `handle_login`
(`self.current_user`); `utype` is the dictionary's `"type"` entry. -/
structure CurrentUser where
  id : String
  name : String
  utype : String
  department : String
  contact : String
  deriving DecidableEq

/-- The chatbot's in-memory session state: `self.current_user` and
`self.user_type`. -/
structure Session where
  current_user : Option CurrentUser := none
  user_type : Option String := none
  deriving DecidableEq

/-- The `Anonymous` session. -/
def anonSession : Session := {}

/-- `verify_role` (lines 272-280): `False` when no user is logged in or
the session's `user_type` differs from the required role. -/
def verify_role (s : Session) (required : String) : Bool :=
  match s.current_user with
  | none => false
  | some _ => s.user_type == some required

inductive LoginResult where
  | alreadyLoggedIn
  | missingFields
  | invalidFormat
  | success
  | authFailed
  deriving DecidableEq

/-- The credential lookup of `handle_login` for one role collection.
Faithful to the source, `self.user_type` is assigned **before** the
lookup, so a failed lookup leaves the session with the attempted role. -/
def loginAs (s : Session) (utype : String) (coll : List Staff)
    (staff_id name : String) : Session × LoginResult :=
  match coll.find? (fun st => st.id == staff_id && st.name == name) with
  | some st =>
    let u : CurrentUser :=
      { id := staff_id, name := name, utype := utype,
        department := st.department.getD "Unknown",
        contact := st.contact.getD "N/A" }
    ({ current_user := some u, user_type := some utype }, .success)
  | none => ({ s with user_type := some utype }, .authFailed)

/-- `handle_login` (lines 158-204): normalize the staff id with
`.strip().upper()` and the name with `.strip().title()`, dispatch on the
role prefix, and accept iff a matching staff document exists. -/
def handle_login (s : Session) (db : Db) (staffIdRaw nameRaw : String) :
    Session × LoginResult :=
  if s.current_user.isSome then (s, .alreadyLoggedIn)
  else
    let staff_id := pyUpper (pyStrip staffIdRaw)
    let name := pyTitle (pyStrip nameRaw)
    if staff_id == "" || name == "" then (s, .missingFields)
    else if pyStartsWith "DOC_" staff_id then loginAs s "doctor" db.doctors staff_id name
    else if pyStartsWith "NUR_" staff_id then loginAs s "nurse" db.nurses staff_id name
    else if pyStartsWith "ADM_" staff_id then loginAs s "admin" db.administrators staff_id name
    else (s, .invalidFormat)

/-- `handle_logout` (lines 206-213). -/
def handle_logout (s : Session) : Session :=
  if s.current_user.isSome then { current_user := none, user_type := none } else s

/-- `validate_login_input` from `app.py` (lines 29-34): reject empty
fields, a staff id shorter than 5 characters, or one with no `_`
separator. -/
def validate_login_input (staff_id name : String) : Bool × String :=
  if staff_id == "" || name == "" then
    (false, "Both staff ID and name are required")
  else if staff_id.length < 5 || !(pySubstr "_" staff_id) then
    (false, "Invalid staff ID format")
  else (true, "")

/-- The normalization the `app.py` login route applies before
validation: `staff_id.upper().strip()` and `name.title().strip()`. -/
def flaskNormalizeLogin (staffIdRaw nameRaw : String) : String × String :=
  (pyStrip (pyUpper staffIdRaw), pyStrip (pyTitle nameRaw))

/-! ## Intent Router: the phrase tables of `setup_commands` and the
dispatch loop of `process_command`. -/

def commands_common : List (String × List String) :=
  [("help", ["help", "commands", "what can you do"]),
   ("login", ["login", "sign in"]),
   ("logout", ["logout", "sign out"]),
   ("exit", ["exit", "quit", "goodbye"])]

def commands_doctor : List (String × List String) :=
  [("search_patient", ["find patient", "search patient", "lookup patient"]),
   ("patient_details", ["patient details", "get patient info"]),
   ("admission_history", ["admission history", "patient admissions"]),
   ("create_prescription", ["new prescription", "prescribe medication"]),
   ("view_schedule", ["my schedule", "today's appointments"]),
   ("add_note", ["add note", "write note"])]

def commands_nurse : List (String × List String) :=
  [("medication_list", ["medication list", "todays medications"]),
   ("record_administration", ["record medication", "give medication"]),
   ("patient_vitals", ["record vitals", "patient vitals"]),
   ("view_applications", ["view tests", "test applications"])]

def commands_admin : List (String × List String) :=
  [("add_staff", ["add staff", "new staff"]),
   ("generate_report", ["generate report", "create report"])]

/-- `self.commands.get(self.user_type, \x7b\x7d)`. -/
def commandTableFor (user_type : String) : List (String × List String) :=
  if user_type == "doctor" then commands_doctor
  else if user_type == "nurse" then commands_nurse
  else if user_type == "admin" then commands_admin
  else []

/-- A table entry matches iff any of its registered phrases occurs as a
substring of the utterance (`any(phrase in user_input ...)`). -/
def phraseMatch (input : String) (e : String × List String) : Bool :=
  e.2.any (fun p => pySubstr p input)

/-- One pass of `process_command`'s dispatch loop over one phrase table:
the first entry (in declaration order) with a matching phrase. -/
def findCmd (input : String) (table : List (String × List String)) :
    Option String :=
  (table.find? (phraseMatch input)).map Prod.fst

/-- `process_command` (lines 222-238): common table first, then — when a
user is logged in — the role-specific table; `none` is the
"I didn't understand that" fallthrough. -/
def process_command (s : Session) (input : String) : Option String :=
  match findCmd input commands_common with
  | some c => some c
  | none =>
    if s.current_user.isSome then
      findCmd input (commandTableFor (s.user_type.getD ""))
    else none

/-- A concrete doctor session used by examples and witnesses. -/
def docUser : CurrentUser :=
  { id := "DOC_001", name := "Jane Doe", utype := "doctor",
    department := "ICU", contact := "x" }

/-- An authenticated doctor session. -/
def docSession : Session :=
  { current_user := some docUser, user_type := some "doctor" }

/-- A concrete nurse session used by examples and witnesses. -/
def nurseUser : CurrentUser :=
  { id := "NUR_001", name := "Ann Lee", utype := "nurse",
    department := "ICU", contact := "x" }

/-- An authenticated nurse session. -/
def nurseSession : Session :=
  { current_user := some nurseUser, user_type := some "nurse" }

/-! ## Workflow executors.  Each command is a function from the session,
the store and its console inputs to the updated store and a typed
result; `insert_one` appends to the collection, every other branch
returns the store unchanged. -/

inductive CmdResult where
  | roleDenied
  | emptyInput
  | invalidFormat (msg : String)
  | notFound (msg : String)
  | exceptionAbort (msg : String)
  | searchResults (ps : List Patient)
  | patientDetails (p : Patient)
      (history : List (Admission × List Diagnosis × List Prescription))
  | schedule (entries : List (Admission × Option Patient × Option Diagnosis))
  | applicationsView (entries : List (Application × Option Patient))
  | prescriptionCreated (rx : Prescription)
  | noteAdded (n : NoteEvent)
  | vitalsRecorded (v : VitalsRecord)
  | admissionHistory (entries : List (Admission × List Diagnosis))
  | medicationList
      (entries : List (Admission × Option Patient × List (Prescription × Bool)))
  | medAdminRecorded (e : MedAdminEvent)
  | staffAdded (newId : String)
  | patientReport (total : Nat) (genderDist : List (String × Nat))
  | admissionReport (total : Nat) (deptDist : List (String × Nat))
  | testReport (total : Nat) (statusDist typeDist : List (String × Nat))
  deriving DecidableEq

/-- The regex metacharacters of the PCRE dialect the store's `$regex`
operator uses: a pattern containing none of them denotes itself
literally, so matching it is substring containment, and it can never be
an invalid pattern. -/
def regexMetaChars : List Char :=
  ['.', '^', '$', '*', '+', '?', '\\', '[', ']', '(', ')', '\x7b', '\x7d', '|']

/-- The search string is free of regex metacharacters.  Only under this
guard does `regexNameMatchI` coincide with the source's regex filter;
patterns with metacharacters match as regexes (or raise on an invalid
pattern), which this embedding does not model. -/
def noRegexMeta (pat : String) : Bool :=
  pat.data.all (fun c => !(regexMetaChars.contains c))

/-- The name filter `\x7b"name": \x7b"$regex": pat, "$options": "i"\x7d\x7d`
of `cmd_search_patient`, for a pattern satisfying `noRegexMeta`: such a
pattern is a literal, so a case-insensitive regex match is
case-insensitive substring containment.  For patterns with
metacharacters this definition is NOT the source's filter; every
statement about it carries the `noRegexMeta` guard. -/
def regexNameMatchI (pat name : String) : Bool :=
  pySubstr (pyLower pat) (pyLower name)

/-- `cmd_search_patient` (lines 247-270): role check, nonempty search
string, then `find(regex-i).limit(5)`. -/
def cmd_search_patient (s : Session) (db : Db) (nameRaw : String) :
    Db × CmdResult :=
  if !(verify_role s "doctor") then (db, .roleDenied)
  else
    let name := pyStrip nameRaw
    if name == "" then (db, .emptyInput)
    else
      let found := (db.patients.filter (fun p => regexNameMatchI name p.name)).take 5
      if found.isEmpty then (db, .notFound "No patients found with that name.")
      else (db, .searchResults found)

/-- `show_medical_history` (lines 315-336): the patient's admissions,
each with its diagnoses and prescriptions filtered by `admission_id`. -/
def show_medical_history (db : Db) (patient_id : String) :
    List (Admission × List Diagnosis × List Prescription) :=
  (db.admissions.filter (fun a => a.patient_id == patient_id)).map (fun a =>
    (a, db.diagnoses.filter (fun d => d.admission_id == a.admission_id),
        db.prescriptions.filter (fun rx => rx.admission_id == a.admission_id)))

/-- The lookup-and-render tail of `cmd_patient_details`. -/
def detailsFor (db : Db) (pid : String) : Db × CmdResult :=
  match db.patients.find? (fun p => p.patient_id == pid) with
  | none => (db, .notFound "Patient not found.")
  | some p => (db, .patientDetails p (show_medical_history db pid))

/-- `cmd_patient_details` (lines 290-313): when no `patient_id` argument
is supplied (or it is empty), prompt for one, normalize it and require
the `PAT_` prefix; then look the patient up and render the history. -/
def cmd_patient_details (s : Session) (db : Db) (patientIdArg : Option String)
    (promptRaw : String) : Db × CmdResult :=
  if !(verify_role s "doctor") then (db, .roleDenied)
  else
    let pid0 := patientIdArg.getD ""
    if pid0 == "" then
      let pid := pyUpper (pyStrip promptRaw)
      if !(pyStartsWith "PAT_" pid) then
        (db, .invalidFormat "Invalid patient ID format. Should start with PAT_.")
      else detailsFor db pid
    else detailsFor db pid0

/-- Ascending `≤` on optional instants; an absent field sorts lowest,
as BSON null does. -/
def optNatLe : Option Nat → Option Nat → Bool
  | none, _ => true
  | some _, none => false
  | some a, some b => a ≤ b

/-- Descending comparison (missing fields last). -/
def optNatGe (a b : Option Nat) : Bool := optNatLe b a

def insertSortedBy {α : Type} (le : α → α → Bool) (x : α) : List α → List α
  | [] => [x]
  | y :: ys => if le x y then x :: y :: ys else y :: insertSortedBy le x ys

/-- Insertion sort by a boolean comparison, modelling a Mongo `sort`. -/
def sortListBy {α : Type} (le : α → α → Bool) : List α → List α
  | [] => []
  | x :: xs => insertSortedBy le x (sortListBy le xs)

/-- `cmd_view_schedule` (lines 430-455): admissions whose `doctor` field
is the logged-in doctor's name and whose `admission_date` is on or after
the start of the current day, sorted ascending, each joined with its
patient and first diagnosis. -/
def cmd_view_schedule (s : Session) (db : Db) (todayStart : Nat) :
    Db × CmdResult :=
  match s.current_user with
  | none => (db, .roleDenied)
  | some me =>
    if s.user_type != some "doctor" then (db, .roleDenied)
    else
      let adms := sortListBy (fun a b => optNatLe a.admission_date b.admission_date)
        (db.admissions.filter (fun a =>
          a.doctor == some me.name && a.admission_date.any (fun d => todayStart ≤ d)))
      if adms.isEmpty then (db, .notFound "No upcoming admissions scheduled for you.")
      else
        (db, .schedule (adms.map (fun a =>
          (a, db.patients.find? (fun p => p.patient_id == a.patient_id),
              db.diagnoses.find? (fun d => d.admission_id == a.admission_id)))))

/-- `cmd_view_applications` (lines 655-681): optional status filter
(only the three known statuses are applied), sort by `created_at`
descending, `limit(10)`, joined with each patient. -/
def cmd_view_applications (s : Session) (db : Db) (statusRaw : String) :
    Db × CmdResult :=
  if !(verify_role s "nurse") then (db, .roleDenied)
  else
    let status := pyCapitalize (pyStrip statusRaw)
    let query := fun (a : Application) =>
      if status == "Pending" || status == "Approved" || status == "Completed" then
        a.status == status
      else true
    let apps := (sortListBy (fun a b => optNatGe a.created_at b.created_at)
      (db.applications.filter query)).take 10
    if apps.isEmpty then (db, .notFound "No test applications found.")
    else
      (db, .applicationsView (apps.map (fun a =>
        (a, db.patients.find? (fun p => p.patient_id == a.patient_id)))))

/-- `cmd_create_prescription` (lines 368-428): role check, `PAT_` format
check, patient lookup, `ADM_` format check, lookup of an admission with
**both** the given `admission_id` and the given `patient_id`, identifier
allocation (lines 403-406), then a single insert stamped with the
prescriber's name and the current time. -/
def cmd_create_prescription (s : Session) (db : Db)
    (patientIdRaw admissionIdRaw drugRaw dosageRaw frequencyRaw : String)
    (now : Nat) : Db × CmdResult :=
  match s.current_user with
  | none => (db, .roleDenied)
  | some me =>
    if s.user_type != some "doctor" then (db, .roleDenied)
    else
      let patient_id := pyUpper (pyStrip patientIdRaw)
      if !(pyStartsWith "PAT_" patient_id) then
        (db, .invalidFormat "Invalid patient ID format.")
      else
        match db.patients.find? (fun p => p.patient_id == patient_id) with
        | none => (db, .notFound "Patient not found.")
        | some _ =>
          let admission_id := pyUpper (pyStrip admissionIdRaw)
          if !(pyStartsWith "ADM_" admission_id) then
            (db, .invalidFormat "Invalid admission ID format.")
          else
            match db.admissions.find? (fun a =>
                a.admission_id == admission_id && a.patient_id == patient_id) with
            | none => (db, .notFound "Admission not found for this patient.")
            | some _ =>
              let drug_name := pyStrip drugRaw
              let dosage := pyStrip dosageRaw
              let frequency := pyStrip frequencyRaw
              match nextIdFrom "PR_" 3
                  (db.prescriptions.map (fun rx => rx.prescription_id)) with
              | none => (db, .exceptionAbort "int() on prescription id suffix")
              | some new_id =>
                let rx : Prescription :=
                  { prescription_id := new_id, admission_id := admission_id,
                    patient_id := patient_id, drug_name := drug_name,
                    dosage := dosage, frequency := frequency,
                    prescribed_by := me.name, prescribed_at := now }
                ({ db with prescriptions := db.prescriptions ++ [rx] },
                 .prescriptionCreated rx)

/-- `cmd_add_note` (lines 457-499): role check, `ADM_` format check,
admission lookup by `admission_id` alone, nonempty note text, identifier
allocation (lines 480-483), then a single insert whose `patient_id` is
copied from the looked-up admission document. -/
def cmd_add_note (s : Session) (db : Db) (admissionIdRaw noteTextRaw : String)
    (now : Nat) : Db × CmdResult :=
  match s.current_user with
  | none => (db, .roleDenied)
  | some me =>
    if s.user_type != some "doctor" then (db, .roleDenied)
    else
      let admission_id := pyUpper (pyStrip admissionIdRaw)
      if !(pyStartsWith "ADM_" admission_id) then
        (db, .invalidFormat "Invalid admission ID format.")
      else
        match db.admissions.find? (fun a => a.admission_id == admission_id) with
        | none => (db, .notFound "Admission not found.")
        | some admission =>
          let note_text := pyStrip noteTextRaw
          if note_text == "" then (db, .emptyInput)
          else
            match nextIdFrom "NOTE_" 5 (db.note_events.map (fun n => n.note_id)) with
            | none => (db, .exceptionAbort "int() on note id suffix")
            | some new_id =>
              let n : NoteEvent :=
                { note_id := new_id, admission_id := admission_id,
                  patient_id := admission.patient_id, doctor_id := me.id,
                  doctor_name := me.name, note_text := note_text, timestamp := now }
              ({ db with note_events := db.note_events ++ [n] }, .noteAdded n)

/-- `cmd_patient_vitals` (lines 611-653): role check, `PAT_` format
check, patient lookup, then the vitals document is built — evaluating
`float(temperature)`, `int(pulse)`, `int(oxygen)` in that order, each of
which raises on a nonempty unparseable input **before** `insert_one` —
and inserted.  Empty inputs are stored as `None`. -/
def cmd_patient_vitals (s : Session) (db : Db)
    (patientIdRaw tempRaw bpRaw pulseRaw oxyRaw notesRaw : String)
    (now : Nat) : Db × CmdResult :=
  match s.current_user with
  | none => (db, .roleDenied)
  | some me =>
    if s.user_type != some "nurse" then (db, .roleDenied)
    else
      let patient_id := pyUpper (pyStrip patientIdRaw)
      if !(pyStartsWith "PAT_" patient_id) then
        (db, .invalidFormat "Invalid patient ID format.")
      else
        match db.patients.find? (fun p => p.patient_id == patient_id) with
        | none => (db, .notFound "Patient not found.")
        | some patient =>
          let temperature := pyStrip tempRaw
          let blood_pressure := pyStrip bpRaw
          let pulse := pyStrip pulseRaw
          let oxygen := pyStrip oxyRaw
          let notes := pyStrip notesRaw
          if temperature != "" && !(isPyFloat temperature) then
            (db, .exceptionAbort "float() on temperature")
          else if pulse != "" && !(isPyInt pulse) then
            (db, .exceptionAbort "int() on pulse")
          else if oxygen != "" && !(isPyInt oxygen) then
            (db, .exceptionAbort "int() on oxygen")
          else
            let v : VitalsRecord :=
              { patient_id := patient_id, patient_name := patient.name,
                temperature := if temperature == "" then none else some temperature,
                blood_pressure := blood_pressure,
                pulse := if pulse == "" then none else some pulse,
                oxygen_saturation := if oxygen == "" then none else some oxygen,
                notes := notes, recorded_by := me.name, recorded_at := now }
            ({ db with patient_vitals := db.patient_vitals ++ [v] },
             .vitalsRecorded v)

/-! ## Admin report aggregation (`generate_patient_report` lines
740-752, `generate_test_report` lines 798-816). -/

/-- First-occurrence deduplication of the category values, modelling the
distinct `_id` keys produced by the `$group` stage. -/
def dedupAcc (seen : List (Option String)) :
    List (Option String) → List (Option String)
  | [] => []
  | x :: xs => if seen.contains x then dedupAcc seen xs else x :: dedupAcc (x :: seen) xs

/-- The `$group`/`$sum: 1` aggregation over a category field: one
`(key, count)` pair per distinct category value (an absent field groups
under `none`, as Mongo groups it under null). -/
def aggregateGroupCount (docs : List (Option String)) :
    List (Option String × Nat) :=
  (dedupAcc [] docs).map (fun k => (k, docs.countP (fun d => d == k)))

/-- The rendering `g['_id'] or 'Unknown'`: Python's `or` falls through
to `'Unknown'` exactly on the falsy keys `None` and `""`. -/
def pyOrUnknown : Option String → String
  | none => "Unknown"
  | some s => if s == "" then "Unknown" else s

/-- A report's printed distribution: the aggregation with keys rendered
through `pyOrUnknown`. -/
def renderDistribution (docs : List (Option String)) : List (String × Nat) :=
  (aggregateGroupCount docs).map (fun kn => (pyOrUnknown kn.1, kn.2))

/-- `generate_patient_report`: total count and gender distribution. -/
def generate_patient_report (db : Db) : Nat × List (String × Nat) :=
  (db.patients.length, renderDistribution (db.patients.map (fun p => p.gender)))

/-- `generate_test_report`: total count, status distribution and test
type distribution. -/
def generate_test_report (db : Db) :
    Nat × List (String × Nat) × List (String × Nat) :=
  (db.applications.length,
   renderDistribution (db.applications.map (fun a => some a.status)),
   renderDistribution (db.applications.map (fun a => some a.test_type)))

/-- `generate_admission_report` (lines 769-796): total count and
department distribution. -/
def generate_admission_report (db : Db) : Nat × List (String × Nat) :=
  (db.admissions.length,
   renderDistribution (db.admissions.map (fun a => a.department)))

/-- Python `s[:k]`: take the first `k` characters. -/
def strTake (k : Nat) (s : String) : String := ⟨s.data.take k⟩

/-- Python `s.isdigit()` for the ASCII inputs at issue: nonempty and all
decimal digits. -/
def pyIsDigit (s : String) : Bool := !s.data.isEmpty && s.data.all Char.isDigit

/-- Decimal value of an all-digit string (`int()` on an `isdigit` input). -/
def digitsVal (s : String) : Nat :=
  s.data.foldl (fun acc c => acc * 10 + (c.toNat - 48)) 0

/-- `cmd_admission_history` (lines 338-366): `PAT_` format check, the
patient's admissions sorted by date descending, each with its diagnoses. -/
def cmd_admission_history (s : Session) (db : Db) (pidRaw : String) :
    Db × CmdResult :=
  if !(verify_role s "doctor") then (db, .roleDenied)
  else
    let patient_id := pyUpper (pyStrip pidRaw)
    if !(pyStartsWith "PAT_" patient_id) then
      (db, .invalidFormat "Invalid patient ID format. Should start with PAT_.")
    else
      let adms := sortListBy (fun a b => optNatGe a.admission_date b.admission_date)
        (db.admissions.filter (fun a => a.patient_id == patient_id))
      if adms.isEmpty then (db, .notFound "No admissions found for this patient.")
      else
        (db, .admissionHistory (adms.map (fun a =>
          (a, db.diagnoses.filter (fun d => d.admission_id == a.admission_id)))))

/-- `cmd_medication_list` (lines 502-539): active admissions of the
nurse's department (admitted by now, no discharge date), each rendered —
when it has prescriptions — with its patient and a Given/Pending flag
per prescription, where Given means a medication administration event
for that patient and prescription stamped today exists. -/
def cmd_medication_list (s : Session) (db : Db) (now todayStart : Nat) :
    Db × CmdResult :=
  match s.current_user with
  | none => (db, .roleDenied)
  | some me =>
    if s.user_type != some "nurse" then (db, .roleDenied)
    else
      let pts := db.admissions.filter (fun a =>
        a.department == some me.department &&
        a.admission_date.any (fun d => d ≤ now) &&
        a.discharge_date == none)
      if pts.isEmpty then (db, .notFound "No active patients in your department.")
      else
        (db, .medicationList ((pts.filter (fun adm =>
            !(db.prescriptions.filter (fun rx =>
              rx.admission_id == adm.admission_id)).isEmpty)).map (fun adm =>
          (adm, db.patients.find? (fun p => p.patient_id == adm.patient_id),
           (db.prescriptions.filter (fun rx =>
              rx.admission_id == adm.admission_id)).map (fun rx =>
             (rx, (db.medication_administration.find? (fun ev =>
                ev.patient_id == adm.patient_id &&
                ev.prescription_id == rx.prescription_id &&
                todayStart ≤ ev.timestamp)).isSome))))))

/-- `cmd_record_administration` (lines 541-609): `PAT_` format check,
patient lookup, lookup of an active admission in the nurse's department,
prescription selection by 1-based index, identifier allocation with the
`MME_` prefix, then a single insert stamped from the session. -/
def cmd_record_administration (s : Session) (db : Db) (pidRaw selRaw : String)
    (now : Nat) : Db × CmdResult :=
  match s.current_user with
  | none => (db, .roleDenied)
  | some me =>
    if s.user_type != some "nurse" then (db, .roleDenied)
    else
      let patient_id := pyUpper (pyStrip pidRaw)
      if !(pyStartsWith "PAT_" patient_id) then
        (db, .invalidFormat "Invalid patient ID format.")
      else
        match db.patients.find? (fun p => p.patient_id == patient_id) with
        | none => (db, .notFound "Patient not found.")
        | some _ =>
          match db.admissions.find? (fun a =>
              a.patient_id == patient_id &&
              a.department == some me.department &&
              a.discharge_date == none) with
          | none => (db, .notFound "Patient not currently admitted to your department.")
          | some admission =>
            let prescriptions := db.prescriptions.filter (fun rx =>
              rx.admission_id == admission.admission_id)
            if prescriptions.isEmpty then
              (db, .notFound "No prescriptions found for this patient.")
            else
              let selection := pyStrip selRaw
              if !(pyIsDigit selection) ||
                  !(1 ≤ digitsVal selection && digitsVal selection ≤ prescriptions.length) then
                (db, .invalidFormat "Invalid selection.")
              else
                match prescriptions.get? (digitsVal selection - 1) with
                | none => (db, .invalidFormat "Invalid selection.")
                | some selected_rx =>
                  match nextIdFrom "MME_" 4
                      (db.medication_administration.map (fun e => e.event_id)) with
                  | none => (db, .exceptionAbort "int() on event id suffix")
                  | some new_id =>
                    let e : MedAdminEvent :=
                      { event_id := new_id, patient_id := patient_id,
                        prescription_id := selected_rx.prescription_id,
                        medication_name := selected_rx.drug_name,
                        event_type := "Administration",
                        dosage := selected_rx.dosage, timestamp := now,
                        staff_id := me.id, staff_name := me.name,
                        staff_type := "Nurse" }
                    ({ db with medication_administration :=
                        db.medication_administration ++ [e] },
                     .medAdminRecorded e)

/-- `cmd_add_staff` (lines 684-719): staff type in the fixed set,
identifier allocation per role collection (prefix `staff_type[:3]`
uppercased plus `_`, suffix after 4 characters), then a single insert;
a non-digit experience entry is stored as 0. -/
def cmd_add_staff (s : Session) (db : Db)
    (stypeRaw nameRaw deptRaw contactRaw expRaw : String) : Db × CmdResult :=
  match s.current_user with
  | none => (db, .roleDenied)
  | some _ =>
    if s.user_type != some "admin" then (db, .roleDenied)
    else
      let staff_type := pyLower (pyStrip stypeRaw)
      if !(staff_type == "doctor" || staff_type == "nurse" || staff_type == "admin") then
        (db, .invalidFormat "Invalid staff type. Must be doctor, nurse, or admin.")
      else
        let name := pyTitle (pyStrip nameRaw)
        let department := pyStrip deptRaw
        let contact := pyStrip contactRaw
        let experience := pyStrip expRaw
        let coll := if staff_type == "doctor" then db.doctors
          else if staff_type == "nurse" then db.nurses
          else db.administrators
        match nextIdFrom (pyUpper (strTake 3 staff_type) ++ "_") 4
            (coll.map (fun st => st.id)) with
        | none => (db, .exceptionAbort "int() on staff id suffix")
        | some new_id =>
          let st : Staff :=
            { id := new_id, name := name, department := some department,
              contact := some contact,
              years_of_experience :=
                some (if pyIsDigit experience then digitsVal experience else 0) }
          (if staff_type == "doctor" then { db with doctors := db.doctors ++ [st] }
           else if staff_type == "nurse" then { db with nurses := db.nurses ++ [st] }
           else { db with administrators := db.administrators ++ [st] },
           .staffAdded new_id)

/-- `cmd_generate_report` (lines 721-738): dispatch on the report type;
the CSV side-channel export is outside the core contract and not
modelled, the in-core aggregation feeding it is. -/
def cmd_generate_report (s : Session) (db : Db) (rtRaw : String) :
    Db × CmdResult :=
  if !(verify_role s "admin") then (db, .roleDenied)
  else
    let report_type := pyLower (pyStrip rtRaw)
    if report_type == "patients" then
      (db, .patientReport (generate_patient_report db).1
        (generate_patient_report db).2)
    else if report_type == "admissions" then
      (db, .admissionReport (generate_admission_report db).1
        (generate_admission_report db).2)
    else if report_type == "tests" then
      (db, .testReport (generate_test_report db).1
        (generate_test_report db).2.1 (generate_test_report db).2.2)
    else
      (db, .invalidFormat "Invalid report type. Must be patients, admissions, or tests.")


/-- A store whose doctors collection holds a document with the 4-character
staff id `DOC_`, exercising the chatbot's missing length check. -/
def loginCexDb : Db := { doctors := [{ id := "DOC_", name := "Bob" }] }

/-- The session `handle_login` produces for that document. -/
def loginCexUser : CurrentUser :=
  { id := "DOC_", name := "Bob", utype := "doctor",
    department := "Unknown", contact := "N/A" }

/-- A store holding one patient and no admissions. -/
def presCexDb : Db := { patients := [{ patient_id := "PAT_001", name := "John Doe" }] }

/-- A store with six patients whose names all contain "doe"
case-insensitively. -/
def searchCexDb : Db :=
  { patients :=
      [{ patient_id := "PAT_001", name := "John Doe" },
       { patient_id := "PAT_002", name := "Jane Doe" },
       { patient_id := "PAT_003", name := "Mary Doe" },
       { patient_id := "PAT_004", name := "Peter Doe" },
       { patient_id := "PAT_005", name := "Paul Doe" },
       { patient_id := "PAT_006", name := "Anna Doe" }] }

/-- A store with one admission, belonging to `PAT_009`. -/
def noteCexDb : Db :=
  { admissions := [{ admission_id := "ADM_001", patient_id := "PAT_009" }] }

/-- The note `cmd_add_note` inserts in the witness scenario. -/
def noteCexNote : NoteEvent :=
  { note_id := "NOTE_001", admission_id := "ADM_001", patient_id := "PAT_009",
    doctor_id := "DOC_001", doctor_name := "Jane Doe", note_text := "stable",
    timestamp := 5 }

/-! ## Claims -/

/-- C1: For every entity kind, the Sequential ID Allocator returns the
fixed prefix followed by the zero-padded (minimum width 3, as Python's
`:03d`) successor of the numeric suffix of the maximum identifier in the
entity's collection, suffix 001 when the collection is empty; on an
empty prescriptions collection it returns `PR_001`, and when the maximum
prescription id is `PR_007` it returns `PR_008`. -/
theorem C1_sequential_id_allocator :
    (∀ pfx k, nextIdFrom pfx k [] = some (pfx ++ zeroPad3Int 1)) ∧
    (∀ pfx k ids m b, findMaxId ids = some m → pyInt? (strDrop k m) = some b →
      nextIdFrom pfx k ids = some (pfx ++ zeroPad3Int (b + 1))) ∧
    nextIdFrom "PR_" 3 [] = some "PR_001" ∧
    nextIdFrom "NOTE_" 5 [] = some "NOTE_001" ∧
    (∀ ids, findMaxId ids = some "PR_007" →
      nextIdFrom "PR_" 3 ids = some "PR_008") := by
  refine ⟨fun pfx k => rfl, ?_, by decide, by decide, ?_⟩
  · intro pfx k ids m b h1 h2
    simp [nextIdFrom, h1, h2]
  · intro ids h
    simp only [nextIdFrom, h]
    decide

/-- Witness for C1 on a concrete collection whose maximum is `PR_007`. -/
theorem C1_sequential_id_allocator_witness :
    findMaxId ["PR_003", "PR_007"] = some "PR_007" ∧
    nextIdFrom "PR_" 3 ["PR_003", "PR_007"] = some "PR_008" :=
  ⟨by decide, C1_sequential_id_allocator.2.2.2.2 ["PR_003", "PR_007"] (by decide)⟩

/-- C2: For every utterance processed while a user is logged in, the
router's result is the first entry, in declaration order, of the common
table followed by the role table whose registered phrases contain a
substring of the utterance; matching is exactly substring occurrence of
a registered phrase, with no scoring. -/
theorem C2_intent_router (s : Session) (input : String)
    (h : s.current_user.isSome = true) :
    process_command s input =
      (List.find? (phraseMatch input)
        (commands_common ++ commandTableFor (s.user_type.getD ""))).map Prod.fst ∧
    ∀ e : String × List String,
      phraseMatch input e = true ↔ ∃ p ∈ e.2, pySubstr p input = true := by
  constructor
  · unfold process_command findCmd
    rw [List.find?_append]
    cases hc : List.find? (phraseMatch input) commands_common with
    | some c => simp [Option.or]
    | none => simp [Option.or, h]
  · intro e
    simp [phraseMatch, List.any_eq_true]

/-- Witness for C2 on a concrete authenticated session and utterance. -/
theorem C2_intent_router_witness :
    process_command docSession "find patient" =
      (List.find? (phraseMatch "find patient")
        (commands_common ++ commandTableFor (docSession.user_type.getD ""))).map
        Prod.fst :=
  (C2_intent_router docSession "find patient" (by decide)).1

/-- C3 is false of `handle_login`: the chatbot never checks the length-5 /
separator condition, so a login attempt whose normalized staff id `DOC_`
has length 4 < 5 can succeed and change the session state. -/
theorem C3_login_validation_counterexample :
    (pyUpper (pyStrip "DOC_")).length < 5 ∧
    handle_login anonSession loginCexDb "DOC_" "Bob" =
      ({ current_user := some loginCexUser, user_type := some "doctor" },
       .success) := by
  decide

/-- `loginAs` either succeeds or keeps `current_user` untouched. -/
theorem loginAs_success_or_keeps (s : Session) (u : String) (c : List Staff)
    (i n : String) :
    (loginAs s u c i n).2 = .success ∨
      (loginAs s u c i n).1.current_user = s.current_user := by
  unfold loginAs
  cases hf : c.find? (fun st => st.id == i && st.name == n) with
  | some st => left; rfl
  | none => right; rfl

/-- `handle_login` either succeeds or keeps `current_user` untouched. -/
theorem handle_login_success_or_keeps (s : Session) (db : Db) (sid nm : String) :
    (handle_login s db sid nm).2 = .success ∨
      (handle_login s db sid nm).1.current_user = s.current_user := by
  unfold handle_login
  split
  · right; rfl
  · dsimp only
    split
    · right; rfl
    · split
      · exact loginAs_success_or_keeps s "doctor" db.doctors _ _
      · split
        · exact loginAs_success_or_keeps s "nurse" db.nurses _ _
        · split
          · exact loginAs_success_or_keeps s "admin" db.administrators _ _
          · right; rfl

/-- C3 amended: both login front ends normalize the staff id to
uppercase and the name to title case (this is how the embedded functions
consume their inputs); the HTTP route's validator rejects whenever the
(normalized) staff id is shorter than 5 characters or has no `_`
separator; the chatbot's `handle_login` performs no such check — it
rejects, leaving the whole session unchanged, any staff id lacking a
`DOC_`/`NUR_`/`ADM_` prefix, and a rejected attempt never changes
`current_user`, but a failed credential lookup does overwrite
`user_type` with the attempted role. -/
theorem C3_login_validation_amended :
    (∀ a b : String, a.length < 5 ∨ pySubstr "_" a = false →
      (validate_login_input a b).1 = false) ∧
    (∀ (s : Session) (db : Db) (sid nm : String),
      (handle_login s db sid nm).2 ≠ .success →
      (handle_login s db sid nm).1.current_user = s.current_user) ∧
    (∀ (s : Session) (db : Db) (sid nm : String),
      s.current_user = none →
      pyStartsWith "DOC_" (pyUpper (pyStrip sid)) = false →
      pyStartsWith "NUR_" (pyUpper (pyStrip sid)) = false →
      pyStartsWith "ADM_" (pyUpper (pyStrip sid)) = false →
      (handle_login s db sid nm).1 = s ∧
      (handle_login s db sid nm).2 ≠ .success) := by
  refine ⟨?_, ?_, ?_⟩
  · intro a b h
    unfold validate_login_input
    by_cases h1 : (a == "" || b == "") = true
    · simp [h1]
    · have h2 : (decide (a.length < 5) || !(pySubstr "_" a)) = true := by
        rcases h with h | h
        · simp [h]
        · simp [h]
      simp [h1, h2]
  · intro s db sid nm h
    rcases handle_login_success_or_keeps s db sid nm with hs | hk
    · exact absurd hs h
    · exact hk
  · intro s db sid nm hcu h1 h2 h3
    unfold handle_login
    simp only [hcu, h1, h2, h3, Option.isSome_none, Bool.false_eq_true,
      if_false]
    split
    · refine ⟨rfl, ?_⟩
      simp
    · refine ⟨rfl, ?_⟩
      simp

/-- Witness for C3's amended claim: a 3-character staff id fails the HTTP
validator, and an unknown-prefix chatbot attempt is rejected with the
session fully unchanged. -/
theorem C3_login_validation_amended_witness :
    (validate_login_input "DOC" "Bob").1 = false ∧
    ((handle_login anonSession {} "XYZ_1" "Bob").1 = anonSession ∧
     (handle_login anonSession {} "XYZ_1" "Bob").2 ≠ .success) :=
  ⟨C3_login_validation_amended.1 "DOC" "Bob" (Or.inl (by decide)),
   C3_login_validation_amended.2.2 anonSession {} "XYZ_1" "Bob" rfl
     (by decide) (by decide) (by decide)⟩

/-- C4: whenever the session's role differs from a command's owning
role, the command returns the role rejection with the store unchanged —
the executor body never runs, so zero Store Gateway writes happen. -/
theorem C4_authorization_gate (s : Session) (db : Db) :
    (s.user_type ≠ some "doctor" →
      (∀ nameRaw, cmd_search_patient s db nameRaw = (db, .roleDenied)) ∧
      (∀ pidArg promptRaw,
        cmd_patient_details s db pidArg promptRaw = (db, .roleDenied)) ∧
      (∀ a, cmd_admission_history s db a = (db, .roleDenied)) ∧
      (∀ today, cmd_view_schedule s db today = (db, .roleDenied)) ∧
      (∀ a b c d e now,
        cmd_create_prescription s db a b c d e now = (db, .roleDenied)) ∧
      (∀ a b now, cmd_add_note s db a b now = (db, .roleDenied))) ∧
    (s.user_type ≠ some "nurse" →
      (∀ now today, cmd_medication_list s db now today = (db, .roleDenied)) ∧
      (∀ a b now, cmd_record_administration s db a b now = (db, .roleDenied)) ∧
      (∀ a, cmd_view_applications s db a = (db, .roleDenied)) ∧
      (∀ a b c d e f now,
        cmd_patient_vitals s db a b c d e f now = (db, .roleDenied))) ∧
    (s.user_type ≠ some "admin" →
      (∀ a b c d e, cmd_add_staff s db a b c d e = (db, .roleDenied)) ∧
      (∀ a, cmd_generate_report s db a = (db, .roleDenied))) := by
  refine ⟨?_, ?_, ?_⟩
  · intro h
    have hb : (s.user_type == some "doctor") = false := by simp [h]
    have hv : verify_role s "doctor" = false := by
      unfold verify_role
      cases s.current_user <;> simp [hb]
    refine ⟨?_, ?_, ?_, ?_, ?_, ?_⟩
    · intro nameRaw; simp [cmd_search_patient, hv]
    · intro pidArg promptRaw; simp [cmd_patient_details, hv]
    · intro a; simp [cmd_admission_history, hv]
    · intro today
      unfold cmd_view_schedule
      cases s.current_user with
      | none => rfl
      | some me => simp [bne, hb]
    · intro a b c d e now
      unfold cmd_create_prescription
      cases s.current_user with
      | none => rfl
      | some me => simp [bne, hb]
    · intro a b now
      unfold cmd_add_note
      cases s.current_user with
      | none => rfl
      | some me => simp [bne, hb]
  · intro h
    have hb : (s.user_type == some "nurse") = false := by simp [h]
    have hv : verify_role s "nurse" = false := by
      unfold verify_role
      cases s.current_user <;> simp [hb]
    refine ⟨?_, ?_, ?_, ?_⟩
    · intro now today
      unfold cmd_medication_list
      cases s.current_user with
      | none => rfl
      | some me => simp [bne, hb]
    · intro a b now
      unfold cmd_record_administration
      cases s.current_user with
      | none => rfl
      | some me => simp [bne, hb]
    · intro a; simp [cmd_view_applications, hv]
    · intro a b c d e f now
      unfold cmd_patient_vitals
      cases s.current_user with
      | none => rfl
      | some me => simp [bne, hb]
  · intro h
    have hb : (s.user_type == some "admin") = false := by simp [h]
    have hv : verify_role s "admin" = false := by
      unfold verify_role
      cases s.current_user <;> simp [hb]
    refine ⟨?_, ?_⟩
    · intro a b c d e
      unfold cmd_add_staff
      cases s.current_user with
      | none => rfl
      | some me => simp [bne, hb]
    · intro a; simp [cmd_generate_report, hv]

/-- Witness for C4: a nurse session invoking the doctor-only
prescription command is rejected with no store mutation. -/
theorem C4_authorization_gate_witness :
    cmd_create_prescription nurseSession {} "PAT_001" "ADM_001" "d" "5mg" "qd" 0 =
      ({}, .roleDenied) :=
  ((C4_authorization_gate nurseSession {}).1 (by decide)).2.2.2.2.1
    "PAT_001" "ADM_001" "d" "5mg" "qd" 0

/-- C5: a created Prescription implies the referenced Patient exists and
an Admission with that id belonging to that patient exists; when no
admission matches the (normalized) patient id, the command returns the
not-found rejection and performs zero inserts. -/
theorem C5_prescription_referential_checks (s : Session) (db : Db)
    (pidRaw aidRaw drug dos freq : String) (now : Nat) :
    (∀ rx, (cmd_create_prescription s db pidRaw aidRaw drug dos freq now).2 =
        .prescriptionCreated rx →
      (∃ p ∈ db.patients, p.patient_id = pyUpper (pyStrip pidRaw)) ∧
      (∃ a ∈ db.admissions, a.admission_id = pyUpper (pyStrip aidRaw) ∧
        a.patient_id = pyUpper (pyStrip pidRaw))) ∧
    (db.admissions.find? (fun a =>
        a.admission_id == pyUpper (pyStrip aidRaw) &&
        a.patient_id == pyUpper (pyStrip pidRaw)) = none →
      (cmd_create_prescription s db pidRaw aidRaw drug dos freq now).1 = db ∧
      ∀ rx, (cmd_create_prescription s db pidRaw aidRaw drug dos freq now).2 ≠
        .prescriptionCreated rx) ∧
    (verify_role s "doctor" = true →
      pyStartsWith "PAT_" (pyUpper (pyStrip pidRaw)) = true →
      (db.patients.find? (fun p =>
        p.patient_id == pyUpper (pyStrip pidRaw))).isSome = true →
      pyStartsWith "ADM_" (pyUpper (pyStrip aidRaw)) = true →
      db.admissions.find? (fun a =>
        a.admission_id == pyUpper (pyStrip aidRaw) &&
        a.patient_id == pyUpper (pyStrip pidRaw)) = none →
      cmd_create_prescription s db pidRaw aidRaw drug dos freq now =
        (db, .notFound "Admission not found for this patient.")) := by
  refine ⟨?_, ?_, ?_⟩
  · intro rx h
    unfold cmd_create_prescription at h
    split at h
    · simp at h
    · split at h
      · simp at h
      · dsimp only at h
        split at h
        · simp at h
        · split at h
          · simp at h
          · rename_i p hp
            split at h
            · simp at h
            · split at h
              · simp at h
              · rename_i a ha
                split at h
                · simp at h
                · constructor
                  · refine ⟨p, List.mem_of_find?_eq_some hp, ?_⟩
                    simpa using List.find?_some hp
                  · have hb := List.find?_some ha
                    simp only [Bool.and_eq_true, beq_iff_eq] at hb
                    exact ⟨a, List.mem_of_find?_eq_some ha, hb.1, hb.2⟩
  · intro hnone
    unfold cmd_create_prescription
    split
    · exact ⟨rfl, fun rx => by simp⟩
    · split
      · exact ⟨rfl, fun rx => by simp⟩
      · dsimp only
        split
        · exact ⟨rfl, fun rx => by simp⟩
        · split
          · exact ⟨rfl, fun rx => by simp⟩
          · split
            · exact ⟨rfl, fun rx => by simp⟩
            · split
              · exact ⟨rfl, fun rx => by simp⟩
              · rename_i a ha
                rw [hnone] at ha
                cases ha
  · intro hrole hpat hfound hadm hnone
    obtain ⟨me, hcu, hut⟩ :
        ∃ me, s.current_user = some me ∧ s.user_type = some "doctor" := by
      unfold verify_role at hrole
      cases hcu : s.current_user with
      | none => rw [hcu] at hrole; cases hrole
      | some me =>
        rw [hcu] at hrole
        exact ⟨me, rfl, by simpa using hrole⟩
    obtain ⟨p, hp⟩ := Option.isSome_iff_exists.mp hfound
    unfold cmd_create_prescription
    rw [hcu]
    simp [hut, hpat, hadm, hp, hnone]

/-- Witness for C5: creating a prescription for `PAT_001`, who has no
admission, fails with the not-found message and leaves the store as is. -/
theorem C5_prescription_referential_checks_witness :
    cmd_create_prescription docSession presCexDb "PAT_001" "ADM_001" "d" "5mg" "qd" 7 =
      (presCexDb, .notFound "Admission not found for this patient.") :=
  (C5_prescription_referential_checks docSession presCexDb
      "PAT_001" "ADM_001" "d" "5mg" "qd" 7).2.2
    (by decide) (by decide) (by decide) (by decide) (by decide)

/-- C6 is false as stated: six patients match "Doe", but the command's
`limit(5)` returns only the first five, omitting the matching patient
`PAT_006` — so the result is not exactly the set of matching patients. -/
theorem C6_search_patient_counterexample :
    (searchCexDb.patients.filter (fun p => regexNameMatchI "Doe" p.name)).length = 6 ∧
    cmd_search_patient docSession searchCexDb "Doe" =
      (searchCexDb, .searchResults (searchCexDb.patients.take 5)) ∧
    "PAT_006" ∉ (searchCexDb.patients.take 5).map (fun p => p.patient_id) := by
  decide

/-- C6 amended: for every search string **free of regex metacharacters**
(`noRegexMeta`) — the strings for which the source's `$regex` filter is
literal case-insensitive containment — `search_patient` returns the
**first five** patients, in collection order, whose name contains the
search string case-insensitively (the not-found message when none
match); whenever at most five patients match, that is exactly the set
of matching patients.  Search strings containing metacharacters are
matched by the store as regular expressions (an invalid pattern
raises); that behaviour is outside this embedding and this theorem says
nothing about it. -/
theorem C6_search_patient_amended (s : Session) (db : Db) (nameRaw : String)
    (hrole : verify_role s "doctor" = true)
    (hne : (pyStrip nameRaw == "") = false)
    (_hplain : noRegexMeta (pyStrip nameRaw) = true) :
    cmd_search_patient s db nameRaw =
      (db,
        if ((db.patients.filter (fun p =>
              regexNameMatchI (pyStrip nameRaw) p.name)).take 5).isEmpty then
          .notFound "No patients found with that name."
        else
          .searchResults ((db.patients.filter (fun p =>
            regexNameMatchI (pyStrip nameRaw) p.name)).take 5)) ∧
    ((db.patients.filter (fun p =>
        regexNameMatchI (pyStrip nameRaw) p.name)).length ≤ 5 →
      (db.patients.filter (fun p =>
        regexNameMatchI (pyStrip nameRaw) p.name)).take 5 =
        db.patients.filter (fun p => regexNameMatchI (pyStrip nameRaw) p.name)) := by
  constructor
  · unfold cmd_search_patient
    rw [hrole]
    simp only [Bool.not_true, Bool.false_eq_true, if_false, hne]
    split <;> simp_all
  · intro h
    exact List.take_of_length_le h

/-- Witness for C6's amended claim on a one-patient store, with the
metacharacter-free search string "Doe". -/
theorem C6_search_patient_amended_witness :
    noRegexMeta (pyStrip "Doe") = true ∧
    cmd_search_patient docSession presCexDb "Doe" =
      (presCexDb,
        if ((presCexDb.patients.filter (fun p =>
              regexNameMatchI (pyStrip "Doe") p.name)).take 5).isEmpty then
          .notFound "No patients found with that name."
        else
          .searchResults ((presCexDb.patients.filter (fun p =>
            regexNameMatchI (pyStrip "Doe") p.name)).take 5)) :=
  ⟨by decide,
   (C6_search_patient_amended docSession presCexDb "Doe" (by decide) (by decide)
     (by decide)).1⟩

/-- Every category value occurring in the documents survives the
first-occurrence deduplication (possibly into the `seen` accumulator). -/
theorem mem_dedupAcc (docs : List (Option String)) :
    ∀ (seen : List (Option String)) (k : Option String), k ∈ docs →
      k ∈ seen ∨ k ∈ dedupAcc seen docs := by
  induction docs with
  | nil => intro seen k h; cases h
  | cons x xs ih =>
    intro seen k h
    unfold dedupAcc
    by_cases hx : seen.contains x = true
    · rw [if_pos hx]
      rcases List.mem_cons.mp h with rfl | hmem
      · exact Or.inl (List.elem_iff.mp hx)
      · exact ih seen k hmem
    · rw [if_neg hx]
      rcases List.mem_cons.mp h with rfl | hmem
      · exact Or.inr (List.mem_cons_self _ _)
      · rcases ih (x :: seen) k hmem with hs | hd
        · rcases List.mem_cons.mp hs with rfl | hseen
          · exact Or.inr (List.mem_cons_self _ _)
          · exact Or.inl hseen
        · exact Or.inr (List.mem_cons_of_mem _ hd)

/-- C7: the report aggregation produces exact per-key counts, every
occurring category (absent field included, grouped under `none`) gets a
group, the null/missing group renders as the literal key "Unknown", and
grouping `[A, A, null]` yields, as a mapping, `A ↦ 2` and `Unknown ↦ 1`. -/
theorem C7_report_grouping :
    (("A", 2) ∈ renderDistribution [some "A", some "A", none] ∧
     ("Unknown", 1) ∈ renderDistribution [some "A", some "A", none] ∧
     (renderDistribution [some "A", some "A", none]).length = 2) ∧
    (∀ (docs : List (Option String)) (k : Option String) (n : Nat),
      (k, n) ∈ aggregateGroupCount docs → n = docs.countP (fun d => d == k)) ∧
    (∀ (docs : List (Option String)) (k : Option String), k ∈ docs →
      (k, docs.countP (fun d => d == k)) ∈ aggregateGroupCount docs) ∧
    (∀ (docs : List (Option String)) (n : Nat),
      (none, n) ∈ aggregateGroupCount docs →
      ("Unknown", n) ∈ renderDistribution docs) ∧
    (∀ db : Db, (generate_patient_report db).2 =
      renderDistribution (db.patients.map (fun p => p.gender))) := by
  refine ⟨by decide, ?_, ?_, ?_, fun db => rfl⟩
  · intro docs k n h
    unfold aggregateGroupCount at h
    rcases List.mem_map.mp h with ⟨k', hk', heq⟩
    cases heq
    rfl
  · intro docs k hk
    unfold aggregateGroupCount
    refine List.mem_map.mpr ⟨k, ?_, rfl⟩
    rcases mem_dedupAcc docs [] k hk with h | h
    · cases h
    · exact h
  · intro docs n h
    unfold renderDistribution
    exact List.mem_map.mpr ⟨(none, n), h, rfl⟩

/-- Witness for C7 at the concrete categories `[A, A, null]`. -/
theorem C7_report_grouping_witness :
    ("Unknown", 1) ∈ renderDistribution [some "A", some "A", none] :=
  C7_report_grouping.2.2.2.1 [some "A", some "A", none] 1 (by decide)

/-- `search_patient` returns the store unchanged on every branch. -/
theorem cmd_search_patient_fst (s : Session) (db : Db) (nameRaw : String) :
    (cmd_search_patient s db nameRaw).1 = db := by
  unfold cmd_search_patient
  dsimp only
  repeat' split
  all_goals rfl

/-- `patient_details` returns the store unchanged on every branch. -/
theorem cmd_patient_details_fst (s : Session) (db : Db)
    (pidArg : Option String) (promptRaw : String) :
    (cmd_patient_details s db pidArg promptRaw).1 = db := by
  unfold cmd_patient_details detailsFor
  dsimp only
  repeat' split
  all_goals rfl

/-- `view_schedule` returns the store unchanged on every branch. -/
theorem cmd_view_schedule_fst (s : Session) (db : Db) (todayStart : Nat) :
    (cmd_view_schedule s db todayStart).1 = db := by
  unfold cmd_view_schedule
  dsimp only
  repeat' split
  all_goals rfl

/-- `view_applications` returns the store unchanged on every branch. -/
theorem cmd_view_applications_fst (s : Session) (db : Db) (statusRaw : String) :
    (cmd_view_applications s db statusRaw).1 = db := by
  unfold cmd_view_applications
  dsimp only
  repeat' split
  all_goals rfl

/-- C8: the read-only commands (patient search, patient details,
schedule, view applications) leave the store untouched on every
execution, and running any of them twice in a row on the store the first
run left behind yields the very same result. -/
theorem C8_read_only_commands (s : Session) (db : Db)
    (nameRaw promptRaw statusRaw : String) (pidArg : Option String)
    (todayStart : Nat) :
    (cmd_search_patient s db nameRaw).1 = db ∧
    (cmd_patient_details s db pidArg promptRaw).1 = db ∧
    (cmd_view_schedule s db todayStart).1 = db ∧
    (cmd_view_applications s db statusRaw).1 = db ∧
    cmd_search_patient s (cmd_search_patient s db nameRaw).1 nameRaw =
      cmd_search_patient s db nameRaw ∧
    cmd_patient_details s (cmd_patient_details s db pidArg promptRaw).1
        pidArg promptRaw =
      cmd_patient_details s db pidArg promptRaw ∧
    cmd_view_schedule s (cmd_view_schedule s db todayStart).1 todayStart =
      cmd_view_schedule s db todayStart ∧
    cmd_view_applications s (cmd_view_applications s db statusRaw).1 statusRaw =
      cmd_view_applications s db statusRaw := by
  refine ⟨cmd_search_patient_fst s db nameRaw,
    cmd_patient_details_fst s db pidArg promptRaw,
    cmd_view_schedule_fst s db todayStart,
    cmd_view_applications_fst s db statusRaw, ?_, ?_, ?_, ?_⟩
  · rw [cmd_search_patient_fst]
  · rw [cmd_patient_details_fst]
  · rw [cmd_view_schedule_fst]
  · rw [cmd_view_applications_fst]

/-- C9: every inserted NoteEvent carries the `patient_id` of the
admission document looked up by the note's `admission_id` — it is copied
from the store, never taken from user input — and the insert appends
exactly that note. -/
theorem C9_note_patient_id_copied (s : Session) (db : Db)
    (aidRaw txtRaw : String) (now : Nat) (n : NoteEvent)
    (h : (cmd_add_note s db aidRaw txtRaw now).2 = .noteAdded n) :
    ∃ adm, db.admissions.find? (fun a =>
        a.admission_id == pyUpper (pyStrip aidRaw)) = some adm ∧
      n.patient_id = adm.patient_id ∧
      n.admission_id = adm.admission_id ∧
      (cmd_add_note s db aidRaw txtRaw now).1.note_events =
        db.note_events ++ [n] := by
  revert h
  unfold cmd_add_note
  split
  · intro h; simp at h
  · split
    · intro h; simp at h
    · dsimp only
      split
      · intro h; simp at h
      · split
        · intro h; simp at h
        · rename_i adm hadm
          split
          · intro h; simp at h
          · split
            · intro h; simp at h
            · intro h
              dsimp only at h
              injection h with hn
              subst hn
              refine ⟨adm, hadm, rfl, ?_, rfl⟩
              have hb : adm.admission_id = pyUpper (pyStrip aidRaw) := by
                simpa using List.find?_some hadm
              exact hb.symm

/-- Witness for C9 on a concrete store and note. -/
theorem C9_note_patient_id_copied_witness :
    ∃ adm, noteCexDb.admissions.find? (fun a =>
        a.admission_id == pyUpper (pyStrip "ADM_001")) = some adm ∧
      noteCexNote.patient_id = adm.patient_id ∧
      noteCexNote.admission_id = adm.admission_id ∧
      (cmd_add_note docSession noteCexDb "ADM_001" "stable" 5).1.note_events =
        noteCexDb.note_events ++ [noteCexNote] :=
  C9_note_patient_id_copied docSession noteCexDb "ADM_001" "stable" 5
    noteCexNote (by decide)

/-- The stored form of an optional numeric input is `None` iff the
(stripped) input was empty. -/
theorem emptyNoneIff (x : String) :
    ((if x == "" then none else some x) : Option String) = none ↔ x = "" := by
  split <;> simp_all

/-- C10: in `patient_vitals`, a nonempty temperature that `float()`
rejects (or a nonempty pulse/oxygen that `int()` rejects) makes the
command abort before `insert_one`, writing nothing; on success, each of
the three numeric fields is stored as `None` exactly when its input was
empty, and exactly one document is appended. -/
theorem C10_vitals_parse_abort (s : Session) (db : Db)
    (pidRaw t bp p o nt : String) (now : Nat) :
    ((pyStrip t ≠ "" ∧ isPyFloat (pyStrip t) = false) ∨
     (pyStrip p ≠ "" ∧ isPyInt (pyStrip p) = false) ∨
     (pyStrip o ≠ "" ∧ isPyInt (pyStrip o) = false) →
      (cmd_patient_vitals s db pidRaw t bp p o nt now).1 = db ∧
      ∀ v, (cmd_patient_vitals s db pidRaw t bp p o nt now).2 ≠
        .vitalsRecorded v) ∧
    (∀ v, (cmd_patient_vitals s db pidRaw t bp p o nt now).2 =
        .vitalsRecorded v →
      (v.temperature = none ↔ pyStrip t = "") ∧
      (v.pulse = none ↔ pyStrip p = "") ∧
      (v.oxygen_saturation = none ↔ pyStrip o = "") ∧
      (cmd_patient_vitals s db pidRaw t bp p o nt now).1.patient_vitals =
        db.patient_vitals ++ [v]) := by
  constructor
  · intro h
    unfold cmd_patient_vitals
    split
    · exact ⟨rfl, fun v => by simp⟩
    · split
      · exact ⟨rfl, fun v => by simp⟩
      · dsimp only
        split
        · exact ⟨rfl, fun v => by simp⟩
        · split
          · exact ⟨rfl, fun v => by simp⟩
          · split
            · exact ⟨rfl, fun v => by simp⟩
            · split
              · exact ⟨rfl, fun v => by simp⟩
              · split
                · exact ⟨rfl, fun v => by simp⟩
                · rename_i h1 h2 h3
                  exfalso
                  rcases h with ⟨ht, hf⟩ | ⟨hp, hf⟩ | ⟨ho, hf⟩
                  · exact h1 (by simp [bne_iff_ne, ht, hf])
                  · exact h2 (by simp [bne_iff_ne, hp, hf])
                  · exact h3 (by simp [bne_iff_ne, ho, hf])
  · intro v h
    revert h
    unfold cmd_patient_vitals
    split
    · intro h; simp at h
    · split
      · intro h; simp at h
      · dsimp only
        split
        · intro h; simp at h
        · split
          · intro h; simp at h
          · split
            · intro h; simp at h
            · split
              · intro h; simp at h
              · split
                · intro h; simp at h
                · intro h
                  dsimp only at h
                  injection h with hv
                  subst hv
                  exact ⟨emptyNoneIff _, emptyNoneIff _, emptyNoneIff _, rfl⟩

/-- Witness for C10: an unparseable temperature input aborts with no
write, and an all-empty vitals entry stores the three numeric fields as
`None`. -/
theorem C10_vitals_parse_abort_witness :
    ((cmd_patient_vitals nurseSession presCexDb "PAT_001" "abc" "" "" "" "" 3).1 =
      presCexDb ∧
     ∀ v, (cmd_patient_vitals nurseSession presCexDb "PAT_001" "abc" "" "" "" "" 3).2 ≠
       .vitalsRecorded v) :=
  (C10_vitals_parse_abort nurseSession presCexDb "PAT_001" "abc" "" "" "" "" 3).1
    (Or.inl ⟨by decide, by decide⟩)
